import Mathlib

/-!
# Verification of the hitmaker traffic-simulation engine (`src/simulator.js`)

This file is a shallow embedding, in Lean 4, of the core traffic-simulation
engine of the `hitmaker` repository (`src/simulator.js`), together with
theorems settling the specification claims about it.

Modelling conventions:
* JavaScript numbers are modelled as rationals (`ℚ`); all the arithmetic the
  claims touch is exact well within double-precision error margins.
* Every call to `Math.random()` is an oracle value: it is passed in explicitly
  as a `ℚ` draw, constrained to `[0,1)` by hypotheses where relevant.
* `Math.floor` is `jsFloor` (equal to `Int.floor`), `Math.round` (half toward
  `+∞`) is `jsRound`, `Math.max` is `jsMax` (equal to `max`); these are spelled
  with kernel-computable primitives so concrete runs evaluate by `decide`.
* The JavaScript `Set` of issued subnets is a duplicate-free list in insertion
  order (`setAdd`), matching `Set.prototype.add` / `Array.from` semantics.
* `fetch` is an oracle: either a resolved response carrying a status code, or
  a rejection carrying an error message (`FetchResult`); a timeout-triggered
  abort is a rejection like any other.
* Field names are the source's names in lower camel case where the source uses
  upper snake case.
-/

namespace Hitmaker

-- `Rat.add`/`mul`/`sub`/`inv` are shipped `@[irreducible]`, which blocks
-- `decide` on concrete rational computations; restore default reducibility.
attribute [local semireducible] Rat.add Rat.mul Rat.sub Rat.inv

/-! ## JavaScript numeric primitives -/

/-- JS `Math.floor` on a rational, via the computable `Rat.floor`. -/
def jsFloor (q : ℚ) : ℤ := q.floor

/-- JS `Math.round q` (round half toward positive infinity): `⌊q + 1/2⌋`. -/
def jsRound (q : ℚ) : ℤ := jsFloor (q + 1/2)

/-- JS `Math.max` on two numbers. -/
def jsMax (a b : ℚ) : ℚ := if a ≤ b then b else a

/-- `randInt(min, max)` from `simulator.js` line 198:
`Math.floor(Math.random() * (max - min + 1)) + min`, with the `Math.random()`
draw `r` passed explicitly. -/
def randInt (min max : ℤ) (r : ℚ) : ℤ := jsFloor (r * ((max : ℚ) - (min : ℚ) + 1)) + min

/-- `randChoice(arr)` from `simulator.js` line 199:
`arr[Math.floor(Math.random() * arr.length)]`, with the draw `r` explicit.
Out-of-range access (impossible for `0 ≤ r < 1`) is modelled by a default. -/
def randChoice {α : Type} (l : List α) (dflt : α) (r : ℚ) : α :=
  l.getD (jsFloor (r * (l.length : ℚ))).toNat dflt

/-- JS `Set.prototype.add`: insert at the end if not already present. -/
def setAdd (l : List String) (s : String) : List String :=
  if s ∈ l then l else l ++ [s]

/-! ## Configuration (`getConfig`, `simulator.js` lines 12-35) -/

/-- One URL-parameter injection rule `{key, value, probability}`.  The source
stores rules as parsed JSON objects; the `value` of a rule with no value is
modelled as the empty string, matching the falsiness test `if (param.value)`
on string-valued rules. -/
structure UrlParam where
  key : String
  value : String
  probability : ℚ
deriving DecidableEq

/-- The engine configuration object returned by `getConfig` and stored on the
engine instance.  Source field names are upper snake case
(`MIN_PER_MIN`, ..., `URL_PARAMS`). -/
structure Config where
  minPerMin : ℚ
  maxPerMin : ℚ
  concurrent : ℚ
  method : String
  timeoutMs : ℚ
  deviceRatio : ℚ
  minActive : ℚ
  maxActive : ℚ
  idleOdds : ℚ
  minIdle : ℚ
  maxIdle : ℚ
  uniqueIpProb : ℚ
  urlParams : List UrlParam
deriving DecidableEq

/-- The numeric value of a list of decimal digit characters. -/
def digitsVal (l : List Char) : ℕ := l.foldl (fun a c => a * 10 + (c.toNat - 48)) 0

/-- JS `Number(s)` on a plain decimal string (an integer part, an optional `.`
and fractional part).  This is the only shape of value the configuration
claims exercise; `NaN` results for malformed strings are out of scope. -/
def jsNumber (s : String) : ℚ :=
  match s.toList.span (fun c => c ≠ '.') with
  | (intPart, []) => (digitsVal intPart : ℚ)
  | (intPart, _dot :: fracPart) =>
    (digitsVal intPart : ℚ) + (digitsVal fracPart : ℚ) / (10 ^ fracPart.length : ℚ)

/-- `Number(process.env.X || d)` for a numeric default `d`: an unset variable
(`none`) and the empty string are falsy and fall back to `d`; any other string
(including `"0"`) is truthy and is converted by `Number`. -/
def numEnv (env : Option String) (d : ℚ) : ℚ :=
  match env with
  | none => d
  | some s => if s = "" then d else jsNumber s

/-- `process.env.METHOD || "GET"`. -/
def strEnv (env : Option String) (d : String) : String :=
  match env with
  | none => d
  | some s => if s = "" then d else s

/-- The environment variables read by `getConfig` (each either unset or a
string value). -/
structure Env where
  minPerMin : Option String := none
  maxPerMin : Option String := none
  concurrent : Option String := none
  method : Option String := none
  timeoutMs : Option String := none
  deviceRatio : Option String := none
  minActive : Option String := none
  maxActive : Option String := none
  idleOdds : Option String := none
  minIdle : Option String := none
  maxIdle : Option String := none
  uniqueIpProb : Option String := none

/-- `getConfig()` from `simulator.js` lines 12-35, for the numeric and method
options (the `URL_PARAMS` JSON parsing is independent of the claims and is
modelled as the already-parsed rule list `urlParams`). -/
def getConfig (e : Env) (urlParams : List UrlParam := []) : Config :=
  { minPerMin := numEnv e.minPerMin 1
    maxPerMin := numEnv e.maxPerMin 100
    concurrent := numEnv e.concurrent 1
    method := strEnv e.method "GET"
    timeoutMs := numEnv e.timeoutMs 8000
    deviceRatio := numEnv e.deviceRatio 50
    minActive := numEnv e.minActive 5
    maxActive := numEnv e.maxActive 25
    idleOdds := numEnv e.idleOdds (1/2)
    minIdle := numEnv e.minIdle 2
    maxIdle := numEnv e.maxIdle 45
    uniqueIpProb := numEnv e.uniqueIpProb (19/20)
    urlParams := urlParams }

/-- The configuration produced by `getConfig()` with no environment overrides
(every default applies). -/
def defaultConfig : Config := getConfig {}

/-! ## Static identity catalogs (`simulator.js` lines 44-192) -/

/-- `DESKTOP_USER_AGENTS` (lines 44-50). -/
def desktopUserAgents : List String :=
  [ "Mozilla/5.0 (Windows NT 10.0; Win64; x64) AppleWebKit/537.36 (KHTML, like Gecko) Chrome/120.0.0.0 Safari/537.36"
  , "Mozilla/5.0 (Macintosh; Intel Mac OS X 13_6) AppleWebKit/605.1.15 (KHTML, like Gecko) Version/16.0 Safari/605.1.15"
  , "Mozilla/5.0 (Windows NT 10.0; Win64; x64; rv:121.0) Gecko/20100101 Firefox/121.0"
  , "Mozilla/5.0 (X11; Linux x86_64) AppleWebKit/537.36 (KHTML, like Gecko) Chrome/120.0.0.0 Safari/537.36"
  , "Mozilla/5.0 (Windows NT 10.0; Win64; x64) AppleWebKit/537.36 (KHTML, like Gecko) Chrome/121.0.0.0 Safari/537.36 Edg/121.0.0.0" ]

/-- `MOBILE_USER_AGENTS` (lines 55-62). -/
def mobileUserAgents : List String :=
  [ "Mozilla/5.0 (iPhone; CPU iPhone OS 17_0 like Mac OS X) AppleWebKit/605.1.15 (KHTML, like Gecko) Version/17.0 Mobile/15E148 Safari/604.1"
  , "Mozilla/5.0 (Linux; Android 14; SM-G991B) AppleWebKit/537.36 (KHTML, like Gecko) Chrome/120.0.0.0 Mobile Safari/537.36"
  , "Mozilla/5.0 (iPhone; CPU iPhone OS 16_6 like Mac OS X) AppleWebKit/605.1.15 (KHTML, like Gecko) CriOS/120.0.6099.119 Mobile/15E148 Safari/604.1"
  , "Mozilla/5.0 (Linux; Android 13; Pixel 7) AppleWebKit/537.36 (KHTML, like Gecko) Chrome/120.0.0.0 Mobile Safari/537.36"
  , "Mozilla/5.0 (iPad; CPU OS 17_1 like Mac OS X) AppleWebKit/605.1.15 (KHTML, like Gecko) Version/17.0 Mobile/15E148 Safari/604.1"
  , "Mozilla/5.0 (Linux; Android 13; SM-X906C) AppleWebKit/537.36 (KHTML, like Gecko) Chrome/120.0.0.0 Safari/537.36" ]

/-- `ACCEPT_LANGS` (lines 64-69). -/
def acceptLangs : List String :=
  [ "en-US,en;q=0.9", "en-GB,en;q=0.9"
  , "da-DK,da;q=0.9,en-US;q=0.8,en;q=0.7", "fr-FR,fr;q=0.9,en-US;q=0.8" ]

/-- `REFERERS` (lines 71-85). -/
def referers : List String :=
  [ "https://facebook.com/", "https://twitter.com/", "https://linkedin.com/"
  , "https://google.com/", "https://reddit.com/", "https://youtube.com/"
  , "https://discord.com/", "https://slack.com/", "https://whatsapp.com/"
  , "https://tiktok.com/", "https://pinterest.com/", "https://telegram.org/"
  , "https://weibo.com/" ]

/-- One entry of the `LOCATIONS` catalog. -/
structure Location where
  country : String
  city : String
  region : String
  latitude : String
  longitude : String
deriving DecidableEq

/-- `LOCATIONS` (lines 91-158). -/
def locations : List Location :=
  [ ⟨"US", "The%20Dalles", "OR", "45.5946", "-121.1787"⟩
  , ⟨"US", "Atlanta", "GA", "33.7490", "-84.3880"⟩
  , ⟨"US", "New%20York", "NY", "40.7128", "-74.0060"⟩
  , ⟨"US", "San%20Francisco", "CA", "37.7749", "-122.4194"⟩
  , ⟨"DK", "Copenhagen", "84", "55.6761", "12.5683"⟩
  , ⟨"DK", "Aarhus", "82", "56.1629", "10.2039"⟩
  , ⟨"DE", "Munich", "BY", "48.1351", "11.5820"⟩
  , ⟨"GB", "London", "ENG", "51.5074", "-0.1278"⟩
  , ⟨"FR", "Paris", "IDF", "48.8566", "2.3522"⟩ ]

/-- `IP_FIRST_OCTETS.US` (lines 165-172). -/
def ipFirstOctetsUS : List ℤ :=
  [ 3, 8, 13, 18, 23, 34, 35, 44, 50, 52, 54, 63, 64, 65, 66, 67, 68, 69, 70
  , 71, 72, 73, 74, 75, 76, 96, 97, 98, 99, 100, 104, 107, 108, 128, 129, 130
  , 131, 132, 134, 135, 136, 137, 138, 139, 140, 142, 143, 144, 147, 148, 149
  , 150, 151, 152, 153, 154, 155, 156, 157, 158, 159, 160, 161, 162, 163, 164
  , 165, 166, 167, 168, 170, 171, 172, 173, 174, 184, 198, 199, 204, 205, 206
  , 207, 208, 209 ]

/-- `IP_FIRST_OCTETS.DK` (lines 173-176). -/
def ipFirstOctetsDK : List ℤ :=
  [ 2, 5, 31, 37, 46, 77, 80, 81, 82, 83, 84, 85, 86, 87, 88, 89, 90, 91, 92
  , 93, 94, 95, 109, 176, 178, 185, 188, 193, 194, 195, 212, 213 ]

/-- `IP_FIRST_OCTETS.DE` (lines 177-181). -/
def ipFirstOctetsDE : List ℤ :=
  [ 2, 5, 31, 37, 46, 62, 77, 78, 79, 80, 81, 82, 83, 84, 85, 86, 87, 88, 89
  , 91, 92, 93, 94, 95, 109, 134, 138, 141, 145, 146, 176, 178, 185, 188, 193
  , 194, 195, 212, 213, 217 ]

/-- `IP_FIRST_OCTETS.GB` (lines 182-186). -/
def ipFirstOctetsGB : List ℤ :=
  [ 2, 5, 31, 37, 46, 51, 62, 77, 78, 79, 80, 81, 82, 83, 84, 85, 86, 87, 88
  , 89, 90, 91, 92, 93, 94, 95, 109, 176, 178, 185, 188, 193, 194, 195, 212
  , 213, 217 ]

/-- `IP_FIRST_OCTETS.FR` (lines 187-191). -/
def ipFirstOctetsFR : List ℤ :=
  [ 2, 5, 31, 37, 46, 62, 77, 78, 79, 80, 81, 82, 83, 84, 85, 86, 87, 88, 89
  , 90, 91, 92, 93, 94, 95, 109, 176, 178, 185, 188, 193, 194, 195, 212, 213
  , 217 ]

/-- `IP_FIRST_OCTETS[countryCode] || IP_FIRST_OCTETS.US`
(`simulator.js` line 211): per-country first-octet pool with the US pool as
fallback for unmapped country codes. -/
def ipFirstOctets : String → List ℤ
  | "US" => ipFirstOctetsUS
  | "DK" => ipFirstOctetsDK
  | "DE" => ipFirstOctetsDE
  | "GB" => ipFirstOctetsGB
  | "FR" => ipFirstOctetsFR
  | _ => ipFirstOctetsUS

/-! ## The Uniqueness Tracker (`generateFakeIp`, lines 207-230) -/

/-- The `Math.random()` draws one call of `generateFakeIp` may consume, all
in `[0,1)`: the uniqueness decision, the three octet draws and the host-octet
draw of the synthesize branch, and the subnet choice of the reuse branch. -/
structure IpDraws where
  unique : ℚ
  first : ℚ
  second : ℚ
  third : ℚ
  host : ℚ
  reuse : ℚ
deriving DecidableEq

/-- `generateFakeIp(countryCode, usedIps, uniqueIpProb)`
(`simulator.js` lines 207-230).  Returns the generated address together with
the updated subnet set (the source mutates the set in place). -/
def generateFakeIp (countryCode : String) (usedIps : List String)
    (uniqueIpProb : ℚ) (d : IpDraws) : String × List String :=
  if d.unique < uniqueIpProb ∨ usedIps.length = 0 then
    let firstOctets := ipFirstOctets countryCode
    let octet1 := randChoice firstOctets 0 d.first
    let octet2 := randInt 0 255 d.second
    let octet3 := randInt 0 255 d.third
    let octet4 := randInt 1 254 d.host
    let ip := toString octet1 ++ "." ++ toString octet2 ++ "." ++ toString octet3
      ++ "." ++ toString octet4
    let subnet := toString octet1 ++ "." ++ toString octet2 ++ "." ++ toString octet3
    (ip, setAdd usedIps subnet)
  else
    let subnet := randChoice usedIps "" d.reuse
    (subnet ++ "." ++ toString (randInt 1 254 d.host), usedIps)

/-- The `/24` subnet (first three octets) the synthesize branch of
`generateFakeIp` draws and records (line 220). -/
def drawnSubnet (countryCode : String) (d : IpDraws) : String :=
  toString (randChoice (ipFirstOctets countryCode) 0 d.first) ++ "."
    ++ toString (randInt 0 255 d.second) ++ "." ++ toString (randInt 0 255 d.third)

/-- Iterated `generateFakeIp`: one call per element of `ds`, threading the
subnet set; returns the generated addresses and the final set. -/
def generateMany (countryCode : String) (uniqueIpProb : ℚ) :
    List String → List IpDraws → List String × List String
  | used, [] => ([], used)
  | used, d :: ds =>
    let r := generateFakeIp countryCode used uniqueIpProb d
    let rest := generateMany countryCode uniqueIpProb r.2 ds
    (r.1 :: rest.1, rest.2)

/-! ## The engine instance (`TrafficSimulator`, lines 239-444) -/

/-- The mutable state of one `TrafficSimulator` instance (constructor,
lines 240-254).  Worker tasks are promises in the source; here only their ids
are tracked, which suffices for the frame claims about them. -/
structure SimState where
  targetUrl : String
  config : Config
  usedIps : List String
  hitCounter : ℕ
  workers : List ℕ
  isRunning : Bool
deriving DecidableEq

/-- The result of the `fetch` call, as an oracle: a resolved response with its
status code, or a rejection with its error message (network failure, or the
abort triggered by the timeout timer). -/
inductive FetchResult where
  | ok (status : ℕ)
  | err (msg : String)
deriving DecidableEq

/-- The outcome object `doHit` returns (lines 332 and 341):
`{success: true, status, hitNumber}` or `{success: false, error, hitNumber}`. -/
inductive Outcome where
  | success (status : ℕ) (hitNumber : ℕ)
  | failure (error : String) (hitNumber : ℕ)
deriving DecidableEq

/-- The `hitNumber` field present in both outcome shapes. -/
def Outcome.hitNumber : Outcome → ℕ
  | .success _ n => n
  | .failure _ n => n

/-- Whether an outcome has `success: true`. -/
def Outcome.isSuccess : Outcome → Bool
  | .success _ _ => true
  | .failure _ _ => false

/-- The query-string segment one included URL-parameter rule appends
(lines 284-288): `&key=value` if the rule's value is truthy (a non-empty
string), else the bare `&key`. -/
def paramSegment (p : UrlParam) : String :=
  if p.value ≠ "" then "&" ++ p.key ++ "=" ++ p.value else "&" ++ p.key

/-- The `URL_PARAMS.forEach` loop of `doHit` (lines 281-291): for each rule,
draw `Math.random() * 100` (supplied in `draws`, each in `[0,100)`) and, when
the draw is below the rule's probability, append the rule's segment to the URL
and its key to `appliedParams`.  Returns the final URL and `appliedParams`. -/
def applyParams : List UrlParam → List ℚ → String → String × List String
  | [], _, url => (url, [])
  | _ :: _, [], url => (url, [])
  | p :: ps, u :: us, url =>
    if u < p.probability then
      let r := applyParams ps us (url ++ paramSegment p)
      (r.1, p.key :: r.2)
    else
      applyParams ps us url

/-- Concatenation of a list of query-string segments. -/
def joinSegs : List String → String
  | [] => ""
  | s :: rest => s ++ joinSegs rest

/-- The `Math.random()` draws one call of `doHit` consumes (besides those of
`generateFakeIp`): the device-ratio draw, the four catalog choices, the
cache-busting token (`Math.random().toString(36).slice(2, 9)`, modelled as an
opaque oracle string), and one draw per URL-parameter rule (pre-scaled to
`[0,100)`). -/
structure HitDraws where
  device : ℚ
  ua : ℚ
  al : ℚ
  ref : ℚ
  loc : ℚ
  cacheBust : String
  ip : IpDraws
  params : List ℚ

/-- The URL `doHit` renders (lines 277-291): the target URL, a `?` or `&`
separator depending on whether the target already has a query, the cache-bust
parameter, then the URL-parameter segments; paired with `appliedParams`. -/
def hitUrl (s : SimState) (d : HitDraws) : String × List String :=
  let sep := if s.targetUrl.contains '?' then "&" else "?"
  applyParams s.config.urlParams d.params (s.targetUrl ++ sep ++ "r=" ++ d.cacheBust)

/-- `doHit(workerId)` (`simulator.js` lines 259-345).  Increments the hit
counter first (line 260), draws the persona, generates the fake IP (updating
the subnet set), renders the URL, then performs the `fetch` whose result is
the oracle `f`: a resolved response of any status yields the success outcome,
a rejection is caught and yields the failure outcome.  Returns the outcome and
the updated engine state. -/
def doHit (s : SimState) (d : HitDraws) (f : FetchResult) : Outcome × SimState :=
  let hitNumber := s.hitCounter + 1
  let isDesktop := d.device * 100 < s.config.deviceRatio
  let _ua := randChoice (if isDesktop then desktopUserAgents else mobileUserAgents) "" d.ua
  let _al := randChoice acceptLangs "" d.al
  let _ref := randChoice referers "" d.ref
  let location := randChoice locations ⟨"US", "", "", "", ""⟩ d.loc
  let g := generateFakeIp location.country s.usedIps s.config.uniqueIpProb d.ip
  let _url := hitUrl s d
  let s' := { s with hitCounter := hitNumber, usedIps := g.2 }
  match f with
  | .ok status => (.success status hitNumber, s')
  | .err msg => (.failure msg hitNumber, s')

/-- A whole run of hit attempts on one engine instance: fold `doHit` over a
list of (draws, fetch-result) pairs. -/
def runHits : SimState → List (HitDraws × FetchResult) → SimState
  | s, [] => s
  | s, (d, f) :: rest => runHits (doHit s d f).2 rest

/-- `stop()` (`simulator.js` lines 429-432): clear the running flag. -/
def stop (s : SimState) : SimState := { s with isRunning := false }

/-- The object `getStats()` returns (lines 437-443). -/
structure Stats where
  hitCounter : ℕ
  uniqueIps : ℕ
  isRunning : Bool
deriving DecidableEq

/-- `getStats()` (`simulator.js` lines 437-443). -/
def getStats (s : SimState) : Stats :=
  { hitCounter := s.hitCounter, uniqueIps := s.usedIps.length, isRunning := s.isRunning }

/-! ## The Phase Scheduler (`activePhase`, `idlePhase`, `workerLoop`,
lines 350-402) -/

/-- The per-request sleep interval of `activePhase`
(`simulator.js` lines 363-365):
`base = 60000 / rate`, `jitter = Math.round(base * (Math.random()*0.2 - 0.1))`,
interval `= Math.max(100, base + jitter)`; the draw `u` is explicit. -/
def hitInterval (rate : ℕ) (u : ℚ) : ℚ :=
  let base : ℚ := 60000 / (rate : ℚ)
  let jitter : ℤ := jsRound (base * (u * (2/10) - 1/10))
  jsMax 100 (base + (jitter : ℚ))

/-- One observation of the `while (Date.now() < end && this.isRunning)`
condition of the active-phase loop (line 359): the value `Date.now()` returned
and the value of the running flag at that check point.  The flag is owned by
the engine and can be cleared between observations by a concurrent `stop()`;
the observation sequence is therefore an oracle. -/
structure Tick where
  now : ℤ
  running : Bool
deriving DecidableEq

/-- The hits performed by the active-phase loop (`simulator.js` lines
358-366) along a sequence of condition observations: each loop iteration
first observes `(Date.now(), isRunning)`; only if the deadline has not passed
and the flag is set does it perform one hit (followed by the jittered sleep)
and continue.  Returns the number of hits performed. -/
def activeHits (endT : ℤ) : List Tick → ℕ
  | [] => 0
  | t :: ts => if t.now < endT ∧ t.running then activeHits endT ts + 1 else 0

/-- The per-iteration draws of `workerLoop` (lines 384-402), with the active
phase abstracted to the wall time it consumed: `activeMinutes` is the
`randInt(MIN_ACTIVE, MAX_ACTIVE)` result, `activeElapsed` the duration of the
`activePhase` call, `idleDraw` the `Math.random()` of the idle decision, and
`idleMinutes` the `randInt(MIN_IDLE, MAX_IDLE)` result. -/
structure PhaseDraws where
  activeMinutes : ℕ
  activeElapsed : ℕ
  idleDraw : ℚ
  idleMinutes : ℕ
deriving DecidableEq

/-- A phase a worker went through, with the wall time it consumed. -/
inductive PhaseEvent where
  | active (ms : ℕ)
  | idle (ms : ℕ)
deriving DecidableEq

/-- `idlePhase(workerId, minutes)` (`simulator.js` lines 372-379): a single
`await sleep(minutes * 60 * 1000)` with no check point inside, so it always
consumes the full drawn duration.  Returns the time at which the sleep ends,
given the time at which it starts. -/
def idlePhaseEnd (start : ℕ) (minutes : ℕ) : ℕ := start + minutes * 60 * 1000

/-- `workerLoop(id)` (`simulator.js` lines 384-402) as a timed trace.  The
running flag is modelled by the absolute time `clearTime` at which `stop()`
clears it: a check at time `t` observes the flag set iff `t < clearTime`.
Each iteration checks the flag (`while (this.isRunning)`), runs the active
phase for `d.activeElapsed` ms, then draws the idle decision; if the draw is
below `idleOdds` and the flag is still set, it runs `idlePhase`, an
uninterruptible sleep of the full `d.idleMinutes * 60 * 1000` ms.  The list
of draws bounds the observed prefix of the loop. -/
def workerRun (idleOdds : ℚ) (clearTime : ℕ) : ℕ → List PhaseDraws → List PhaseEvent
  | _, [] => []
  | now, d :: ds =>
    if now < clearTime then
      let afterActive := now + d.activeElapsed
      if d.idleDraw < idleOdds ∧ afterActive < clearTime then
        PhaseEvent.active d.activeElapsed :: PhaseEvent.idle (d.idleMinutes * 60 * 1000) ::
          workerRun idleOdds clearTime (idlePhaseEnd afterActive d.idleMinutes) ds
      else
        PhaseEvent.active d.activeElapsed :: workerRun idleOdds clearTime afterActive ds
    else []

/-! ## Concrete example inputs used by counterexamples and witnesses -/

/-- A validly constructed engine instance: default configuration, fresh
state, engine running. -/
def exampleState : SimState :=
  { targetUrl := "https://example.com/landing"
    config := defaultConfig
    usedIps := []
    hitCounter := 0
    workers := []
    isRunning := true }

/-- Concrete draws for one `doHit` call (all random draws zero, a fixed
cache-bust token). -/
def exampleDraws : HitDraws :=
  { device := 0, ua := 0, al := 0, ref := 0, loc := 0, cacheBust := "abc0001"
    ip := ⟨0, 0, 0, 0, 0, 0⟩, params := [] }

/-- An engine whose configuration carries two URL-parameter rules: `qr`
(empty value, probability 100) and `utm` (value `x`, probability 0). -/
def paramState : SimState :=
  { exampleState with config := { defaultConfig with urlParams :=
      [⟨"qr", "", 100⟩, ⟨"utm", "x", 0⟩] } }

/-- Draws for one `doHit` call on `paramState`: one parameter draw per rule. -/
def paramDraws : HitDraws := { exampleDraws with params := [0, 0] }

/-- An environment with `MIN_PER_MIN`, `IDLE_ODDS` and `UNIQUE_IP_PROB` all
set to the string `"0"` (and everything else unset). -/
def zeroEnv : Env :=
  { minPerMin := some "0", idleOdds := some "0", uniqueIpProb := some "0" }

/-- All `Math.random()` draws of one `generateFakeIp` call lie in `[0,1)`. -/
def IpDraws.valid (d : IpDraws) : Prop :=
  0 ≤ d.unique ∧ d.unique < 1 ∧ 0 ≤ d.first ∧ d.first < 1
  ∧ 0 ≤ d.second ∧ d.second < 1 ∧ 0 ≤ d.third ∧ d.third < 1
  ∧ 0 ≤ d.host ∧ d.host < 1 ∧ 0 ≤ d.reuse ∧ d.reuse < 1

instance (d : IpDraws) : Decidable d.valid := by
  unfold IpDraws.valid; infer_instance

/-! ## Helper lemmas -/

theorem jsFloor_eq (q : ℚ) : jsFloor q = ⌊q⌋ := by
  rw [jsFloor, Rat.floor_def', Rat.floor_def]

theorem jsMax_eq (a b : ℚ) : jsMax a b = max a b := (max_def a b).symm

theorem doHit_counter_eq (s : SimState) (d : HitDraws) (f : FetchResult) :
    (doHit s d f).2.hitCounter = s.hitCounter + 1 := by
  cases f <;> rfl

theorem doHit_hitNumber_eq (s : SimState) (d : HitDraws) (f : FetchResult) :
    ((doHit s d f).1).hitNumber = s.hitCounter + 1 := by
  cases f <;> rfl

theorem runHits_counter (s : SimState) (l : List (HitDraws × FetchResult)) :
    (runHits s l).hitCounter = s.hitCounter + l.length := by
  induction l generalizing s with
  | nil => rfl
  | cons p rest ih =>
    obtain ⟨d, f⟩ := p
    rw [runHits, ih, doHit_counter_eq, List.length_cons]
    omega

theorem mem_setAdd_of_mem {l : List String} {a : String} (s : String) (h : a ∈ l) :
    a ∈ setAdd l s := by
  rw [setAdd]
  split
  · exact h
  · exact List.mem_append_left _ h

theorem self_mem_setAdd (l : List String) (s : String) : s ∈ setAdd l s := by
  rw [setAdd]
  split
  · assumption
  · exact List.mem_append_right _ (List.mem_singleton.mpr rfl)

theorem setAdd_length_le (l : List String) (s : String) :
    (setAdd l s).length ≤ l.length + 1 := by
  rw [setAdd]
  split
  · omega
  · simp

/-! ## Claim theorems -/

/-- C5: every invocation of `doHit` increases the engine's hit counter by
exactly 1; the hit number (assigned before the network call) equals the new
counter value and is the same whatever the fetch outcome is, so the increase
does not depend on success or failure; over any run of invocations the
counter is monotonically non-decreasing. -/
theorem doHit_counter_increment (s : SimState) (d : HitDraws) (f : FetchResult)
    (l : List (HitDraws × FetchResult)) :
    (doHit s d f).2.hitCounter = s.hitCounter + 1
    ∧ ((doHit s d f).1).hitNumber = s.hitCounter + 1
    ∧ (∀ f' : FetchResult, ((doHit s d f').1).hitNumber = ((doHit s d f).1).hitNumber)
    ∧ s.hitCounter ≤ (runHits s l).hitCounter := by
  refine ⟨doHit_counter_eq s d f, doHit_hitNumber_eq s d f, ?_, ?_⟩
  · intro f'
    rw [doHit_hitNumber_eq, doHit_hitNumber_eq]
  · rw [runHits_counter]
    omega

/-- C9: `stop()` modifies only the running flag (clearing it); the hit
counter, subnet set, configuration, target URL and worker collection are
unchanged, so `getStats()` reports the same counter and subnet count
immediately before and after `stop()`. -/
theorem stop_frame (s : SimState) :
    (stop s).isRunning = false
    ∧ (stop s).hitCounter = s.hitCounter
    ∧ (stop s).usedIps = s.usedIps
    ∧ (stop s).config = s.config
    ∧ (stop s).targetUrl = s.targetUrl
    ∧ (stop s).workers = s.workers
    ∧ (getStats (stop s)).hitCounter = (getStats s).hitCounter
    ∧ (getStats (stop s)).uniqueIps = (getStats s).uniqueIps :=
  ⟨rfl, rfl, rfl, rfl, rfl, rfl, rfl, rfl⟩

/-- C1 counterexample: the claim is false on the code.  On a validly
constructed engine, a request that completes with status 404 (not 2xx/3xx)
yields the success outcome `{success: true, status: 404}`, not a failure
outcome: `fetch` only rejects on network failure, and `doHit` treats every
resolved response as a success (line 332). -/
theorem doHit_non2xx_success_counterexample :
    (doHit exampleState exampleDraws (FetchResult.ok 404)).1 = Outcome.success 404 1
    ∧ ((doHit exampleState exampleDraws (FetchResult.ok 404)).1).isSuccess = true
    ∧ (∀ e n, (doHit exampleState exampleDraws (FetchResult.ok 404)).1 ≠ Outcome.failure e n) := by
  refine ⟨by decide, by decide, ?_⟩
  intro e n h
  rw [show (doHit exampleState exampleDraws (FetchResult.ok 404)).1
    = Outcome.success 404 1 from rfl] at h
  exact Outcome.noConfusion h

/-- C1 amended: if the HTTP request completes with a response whose status is
not 2xx/3xx (e.g. 404 or 500), the returned outcome is still a *success*
outcome carrying that status; only network failures and timeouts produce
failure outcomes. -/
theorem doHit_completed_response_success (s : SimState) (d : HitDraws) (status : ℕ)
    (_hstatus : ¬ (200 ≤ status ∧ status < 400)) :
    (doHit s d (FetchResult.ok status)).1 = Outcome.success status (s.hitCounter + 1) := by
  rfl

/-- C1 amended witness: instantiated at status 404 on the example engine. -/
theorem doHit_completed_response_success_witness :
    ¬ ((200:ℕ) ≤ 404 ∧ (404:ℕ) < 400)
    ∧ (doHit exampleState exampleDraws (FetchResult.ok 404)).1
      = Outcome.success 404 (exampleState.hitCounter + 1) :=
  ⟨by decide, doHit_completed_response_success exampleState exampleDraws 404 (by decide)⟩

/-- C8: `doHit` never raises to its caller: it is a total function of the
fetch oracle.  Every rejection of the `fetch` (network failure, or the abort
the timeout timer triggers) is caught and converted into a returned failure
outcome carrying the failure reason; a resolved response yields a success
outcome carrying the response status. -/
theorem doHit_never_raises (s : SimState) (d : HitDraws) (f : FetchResult) :
    (∀ status, f = FetchResult.ok status →
      (doHit s d f).1 = Outcome.success status (s.hitCounter + 1))
    ∧ (∀ msg, f = FetchResult.err msg →
      (doHit s d f).1 = Outcome.failure msg (s.hitCounter + 1)) := by
  constructor
  · rintro status rfl
    rfl
  · rintro msg rfl
    rfl

/-- C8 witness: instantiated on the example engine at a timeout-style
rejection. -/
theorem doHit_never_raises_witness :
    (doHit exampleState exampleDraws (FetchResult.err "This operation was aborted")).1
      = Outcome.failure "This operation was aborted" (exampleState.hitCounter + 1) :=
  (doHit_never_raises exampleState exampleDraws
    (FetchResult.err "This operation was aborted")).2 "This operation was aborted" rfl

/-- C10 counterexample: the claim is false on the code.  `process.env` values
are strings, and the string `"0"` is truthy in JavaScript, so
`Number(process.env.MIN_PER_MIN || 1)` with `MIN_PER_MIN="0"` evaluates
`Number("0") = 0`, not the default 1; likewise `IDLE_ODDS=0` yields 0 (not
0.5) and `UNIQUE_IP_PROB=0` yields 0 (not 0.95).  Zero therefore *can* be
configured through the environment. -/
theorem getConfig_zero_env_counterexample :
    (getConfig zeroEnv).minPerMin = 0
    ∧ (getConfig zeroEnv).minPerMin ≠ 1
    ∧ (getConfig zeroEnv).idleOdds = 0
    ∧ (getConfig zeroEnv).idleOdds ≠ 1/2
    ∧ (getConfig zeroEnv).uniqueIpProb = 0
    ∧ (getConfig zeroEnv).uniqueIpProb ≠ 19/20 := by
  refine ⟨by decide, by decide, by decide, by decide, by decide, by decide⟩

/-- C10 amended: only an *unset* variable or one set to the *empty string* is
treated as unset by the `||` fallback (both are falsy); any non-empty string,
`"0"` included, is passed to `Number`, so a zero value can be configured.
E.g. `MIN_PER_MIN="0"` yields 0. -/
theorem getConfig_env_fallback (d : ℚ) (s : String) (hs : s ≠ "") :
    numEnv none d = d
    ∧ numEnv (some "") d = d
    ∧ numEnv (some s) d = jsNumber s
    ∧ (getConfig zeroEnv).minPerMin = 0 := by
  refine ⟨rfl, rfl, ?_, by decide⟩
  rw [numEnv]
  simp [hs]

/-- C10 amended witness: instantiated at the default 1 and the string `"0"`. -/
theorem getConfig_env_fallback_witness :
    ("0" : String) ≠ ""
    ∧ (numEnv none 1 = 1 ∧ numEnv (some "") 1 = 1 ∧ numEnv (some "0") 1 = jsNumber "0"
      ∧ (getConfig zeroEnv).minPerMin = 0) :=
  ⟨by decide, getConfig_env_fallback 1 "0" (by decide)⟩

/-- C4 counterexample: the exact bounds are false on the code because the
jitter is rounded to an integer.  With rate bounds `min = max = 9` (so the
drawn rate is 9) and jitter draw 0: `base = 60000/9 = 6666.6…`,
`Math.round(base * -0.1) = Math.round(-666.66…) = -667`, so the interval is
`6666.66… - 667 = 5999.66… < 0.9 × 60000/9 = 6000`, and the interval is not
the 100 ms floor either. -/
theorem hitInterval_rounding_counterexample :
    ((1:ℕ) ≤ 9 ∧ (9:ℕ) ≤ 9 ∧ (0:ℚ) ≤ 0 ∧ (0:ℚ) < 1)
    ∧ hitInterval 9 0 = 17999/3
    ∧ hitInterval 9 0 < (9/10) * (60000 / ((9:ℕ):ℚ))
    ∧ hitInterval 9 0 ≠ 100 := by
  refine ⟨by decide, by decide, by decide, by decide⟩

/-- C4 amended: rounding the jitter to a whole millisecond can move the
interval up to half a millisecond past the exact ±10% bounds, so for every
drawn rate `r` in the configured bounds and every jitter draw `u ∈ [0,1)`,
the computed interval satisfies
`max 100 (0.9 × 60000/r − 1/2) ≤ interval ≤ max 100 (1.1 × 60000/r + 1/2)`
(the `max` with 100 being the configured floor). -/
theorem hitInterval_bounds (minRate maxRate r : ℕ) (u : ℚ)
    (hmin : 1 ≤ minRate) (hlo : minRate ≤ r) (_hhi : r ≤ maxRate)
    (hu0 : 0 ≤ u) (hu1 : u < 1) :
    jsMax 100 ((9/10) * (60000 / ((r:ℕ):ℚ)) - 1/2) ≤ hitInterval r u
    ∧ hitInterval r u ≤ jsMax 100 ((11/10) * (60000 / ((r:ℕ):ℚ)) + 1/2) := by
  have hr1 : (1:ℚ) ≤ ((r:ℕ):ℚ) := by exact_mod_cast hmin.trans hlo
  have hunfold : hitInterval r u
      = jsMax 100 (60000 / ((r:ℕ):ℚ)
          + ((jsRound ((60000 / ((r:ℕ):ℚ)) * (u * (2/10) - 1/10))) : ℚ)) := rfl
  rw [hunfold, jsMax_eq, jsMax_eq, jsMax_eq]
  have hbpos : (0:ℚ) < 60000 / ((r:ℕ):ℚ) := by
    apply div_pos (by norm_num)
    linarith
  set b : ℚ := 60000 / ((r:ℕ):ℚ) with hb
  set x : ℚ := b * (u * (2/10) - 1/10) with hx
  have hx1 : -(1/10) * b ≤ x := by rw [hx]; nlinarith
  have hx2 : x < (1/10) * b := by rw [hx]; nlinarith
  have hjl : x - 1/2 < ((jsRound x : ℤ) : ℚ) := by
    rw [jsRound, jsFloor_eq]
    have hfl := Int.sub_one_lt_floor (x + 1/2)
    push_cast at hfl
    linarith
  have hju : ((jsRound x : ℤ) : ℚ) ≤ x + 1/2 := by
    rw [jsRound, jsFloor_eq]
    exact_mod_cast Int.floor_le (x + 1/2)
  constructor
  · exact max_le_max (le_refl 100) (by linarith)
  · exact max_le_max (le_refl 100) (by linarith)

/-- C4 amended witness: instantiated at rate bounds 60..60, drawn rate 60,
jitter draw 1/2 (zero jitter). -/
theorem hitInterval_bounds_witness :
    ((1:ℕ) ≤ 60 ∧ (60:ℕ) ≤ 60 ∧ (60:ℕ) ≤ 60 ∧ (0:ℚ) ≤ 1/2 ∧ (1/2:ℚ) < 1)
    ∧ (jsMax 100 ((9/10) * (60000 / ((60:ℕ):ℚ)) - 1/2) ≤ hitInterval 60 (1/2)
      ∧ hitInterval 60 (1/2) ≤ jsMax 100 ((11/10) * (60000 / ((60:ℕ):ℚ)) + 1/2)) :=
  ⟨⟨by decide, by decide, by decide, by decide, by decide⟩,
   hitInterval_bounds 60 60 60 (1/2) (by decide) (by decide) (by decide)
     (by decide) (by decide)⟩

/-- C7: in the active phase the loop condition — deadline not reached and
running flag set — is observed at the head of every iteration, before that
iteration's hit: at most one hit happens per observation, every performed
hit's own observation saw the flag set (and the deadline not passed), and if
the `k`-th observation sees the flag cleared then at most `k` hits are ever
performed — the phase halts before the next hit, not merely before the next
sleep. -/
theorem activePhase_checks_flag (endT : ℤ) (ts : List Tick) :
    activeHits endT ts ≤ ts.length
    ∧ (∀ k (hk : k < ts.length), (ts.get ⟨k, hk⟩).running = false →
        activeHits endT ts ≤ k)
    ∧ (∀ k (hk : k < ts.length), k < activeHits endT ts →
        (ts.get ⟨k, hk⟩).running = true ∧ (ts.get ⟨k, hk⟩).now < endT) := by
  induction ts with
  | nil =>
    refine ⟨Nat.le_refl 0, ?_, ?_⟩
    · intro k hk
      exact absurd hk (Nat.not_lt_zero k)
    · intro k hk
      exact absurd hk (Nat.not_lt_zero k)
  | cons t ts ih =>
    by_cases hcond : t.now < endT ∧ t.running
    · have hrec : activeHits endT (t :: ts) = activeHits endT ts + 1 := by
        rw [activeHits, if_pos hcond]
      refine ⟨?_, ?_, ?_⟩
      · rw [hrec, List.length_cons]
        exact Nat.succ_le_succ ih.1
      · intro k hk hfalse
        match k, hk, hfalse with
        | 0, hk, hfalse =>
          have hfalse' : t.running = false := hfalse
          rw [hfalse'] at hcond
          exact absurd hcond.2 (by simp)
        | k + 1, hk, hfalse =>
          have hk' : k < ts.length := by simpa using hk
          have hfalse' : (ts.get ⟨k, hk'⟩).running = false := hfalse
          have := ih.2.1 k hk' hfalse'
          rw [hrec]
          omega
      · intro k hk hlt
        match k, hk with
        | 0, hk =>
          exact ⟨hcond.2, hcond.1⟩
        | k + 1, hk =>
          have hk' : k < ts.length := by simpa using hk
          rw [hrec] at hlt
          exact ih.2.2 k hk' (by omega)
    · have hrec : activeHits endT (t :: ts) = 0 := by
        rw [activeHits, if_neg hcond]
      refine ⟨?_, ?_, ?_⟩
      · rw [hrec]
        exact Nat.zero_le _
      · intro k hk hfalse
        rw [hrec]
        exact Nat.zero_le k
      · intro k hk hlt
        rw [hrec] at hlt
        exact absurd hlt (Nat.not_lt_zero k)

/-- C7 witness: a trace whose second observation sees the flag cleared — at
most one hit is performed. -/
theorem activePhase_checks_flag_witness :
    activeHits 10 [⟨0, true⟩, ⟨1, false⟩, ⟨2, true⟩] ≤ 1 :=
  (activePhase_checks_flag 10 [⟨0, true⟩, ⟨1, false⟩, ⟨2, true⟩]).2.1 1
    (by decide) (by decide)

/-- C2 counterexample: the claim is false on the code.  With idle-entry
probability 1, a worker that finishes its active phase at time 3 enters an
idle phase of 2 drawn minutes; `stop()` clears the flag at time 5 — strictly
inside the idle sleep, which runs to time 120003 — yet the idle event still
has the full drawn duration of 120000 ms: `idlePhase` is one uninterruptible
`await sleep(minutes * 60 * 1000)` with no check point inside, so the worker
does not transition out of IDLE when the flag clears. -/
theorem idlePhase_uninterruptible_counterexample :
    workerRun 1 5 0 [⟨1, 3, 0, 2⟩]
      = [PhaseEvent.active 3, PhaseEvent.idle (2 * 60 * 1000)]
    ∧ (3 < 5 ∧ 5 < idlePhaseEnd 3 2)
    ∧ (2 * 60 * 1000 : ℕ) ≠ 0 := by
  refine ⟨by decide, by decide, by decide⟩

/-- C2 amended: the idle sleep contains no check point: every idle phase in a
worker trace runs for the full drawn duration, even when the running flag
clears during the sleep; the cleared flag is observed at the worker's next
check point — the loop-head check — where the worker exits promptly with no
further phases. -/
theorem workerRun_idle_full_duration (idleOdds : ℚ) (clearTime now : ℕ)
    (ds : List PhaseDraws) :
    (¬ now < clearTime → workerRun idleOdds clearTime now ds = [])
    ∧ (∀ ms, PhaseEvent.idle ms ∈ workerRun idleOdds clearTime now ds →
        ∃ d ∈ ds, ms = d.idleMinutes * 60 * 1000) := by
  constructor
  · intro h
    cases ds with
    | nil => rfl
    | cons d ds => rw [workerRun, if_neg h]
  · induction ds generalizing now with
    | nil =>
      intro ms h
      exact absurd h (List.not_mem_nil _)
    | cons d ds ih =>
      intro ms h
      rw [workerRun] at h
      by_cases hrun : now < clearTime
      · rw [if_pos hrun] at h
        by_cases hidle : d.idleDraw < idleOdds ∧ now + d.activeElapsed < clearTime
        · rw [if_pos hidle] at h
          rcases List.mem_cons.mp h with hact | h2
          · exact absurd hact (by simp)
          · rcases List.mem_cons.mp h2 with hidl | hrest
            · have : ms = d.idleMinutes * 60 * 1000 := by
                injection hidl
              exact ⟨d, List.mem_cons_self d ds, this⟩
            · obtain ⟨d', hd', hms⟩ := ih _ ms hrest
              exact ⟨d', List.mem_cons_of_mem d hd', hms⟩
        · rw [if_neg hidle] at h
          rcases List.mem_cons.mp h with hact | hrest
          · exact absurd hact (by simp)
          · obtain ⟨d', hd', hms⟩ := ih _ ms hrest
            exact ⟨d', List.mem_cons_of_mem d hd', hms⟩
      · rw [if_neg hrun] at h
        exact absurd h (List.not_mem_nil _)

/-- C2 amended witness: instantiated on the counterexample trace — the
worker started after the clear time emits nothing, and the idle event of the
mid-sleep-stopped worker still carries a full drawn duration. -/
theorem workerRun_idle_full_duration_witness :
    workerRun 1 0 5 [⟨1, 3, 0, 2⟩] = []
    ∧ ∃ d ∈ [(⟨1, 3, 0, 2⟩ : PhaseDraws)], (2 * 60 * 1000 : ℕ) = d.idleMinutes * 60 * 1000 :=
  ⟨(workerRun_idle_full_duration 1 0 5 [⟨1, 3, 0, 2⟩]).1 (by decide),
   (workerRun_idle_full_duration 1 5 0 [⟨1, 3, 0, 2⟩]).2 (2 * 60 * 1000) (by decide)⟩

/-- The accumulator-passing `forEach` loop of `doHit` in closed form: the
applied keys are exactly the keys of the rules whose draw passed, in rule
order, and the final URL is the initial URL followed by the concatenated
segments of those rules, in rule order. -/
theorem applyParams_spec (ps : List UrlParam) (us : List ℚ) (url : String) :
    (applyParams ps us url).2
      = ((ps.zip us).filter (fun pu => decide (pu.2 < pu.1.probability))).map
          (fun pu => pu.1.key)
    ∧ (applyParams ps us url).1
      = url ++ joinSegs (((ps.zip us).filter
          (fun pu => decide (pu.2 < pu.1.probability))).map (fun pu => paramSegment pu.1)) := by
  induction ps generalizing us url with
  | nil => exact ⟨rfl, (String.append_empty url).symm⟩
  | cons p ps ih =>
    cases us with
    | nil => exact ⟨rfl, (String.append_empty url).symm⟩
    | cons u us =>
      rw [List.zip_cons_cons]
      by_cases hc : u < p.probability
      · have harm : applyParams (p :: ps) (u :: us) url
            = ((applyParams ps us (url ++ paramSegment p)).1,
               p.key :: (applyParams ps us (url ++ paramSegment p)).2) := by
          rw [applyParams, if_pos hc]
        obtain ⟨ih1, ih2⟩ := ih us (url ++ paramSegment p)
        have hfilter : List.filter (fun pu => decide (pu.2 < pu.1.probability))
            ((p, u) :: ps.zip us)
            = (p, u) :: List.filter (fun pu => decide (pu.2 < pu.1.probability)) (ps.zip us) := by
          simp [List.filter_cons, hc]
        rw [harm, hfilter, List.map_cons, List.map_cons]
        have hjoin : joinSegs (paramSegment p :: List.map (fun pu => paramSegment pu.1)
            (List.filter (fun pu => decide (pu.2 < pu.1.probability)) (ps.zip us)))
            = paramSegment p ++ joinSegs (List.map (fun pu => paramSegment pu.1)
              (List.filter (fun pu => decide (pu.2 < pu.1.probability)) (ps.zip us))) := rfl
        constructor
        · rw [ih1]
        · rw [ih2, hjoin]
          exact String.append_assoc url (paramSegment p) _
      · have harm : applyParams (p :: ps) (u :: us) url = applyParams ps us url := by
          rw [applyParams, if_neg hc]
        have hfilter : List.filter (fun pu => decide (pu.2 < pu.1.probability))
            ((p, u) :: ps.zip us)
            = List.filter (fun pu => decide (pu.2 < pu.1.probability)) (ps.zip us) := by
          simp [List.filter_cons, hc]
        obtain ⟨ih1, ih2⟩ := ih us url
        rw [harm, hfilter]
        exact ⟨ih1, ih2⟩

/-- If the draw list is as long as the rule list, every rule is paired with a
draw in their zip. -/
theorem exists_zip_of_mem {α β : Type} {l1 : List α} {l2 : List β}
    (hlen : l2.length = l1.length) {a : α} (ha : a ∈ l1) :
    ∃ b, (a, b) ∈ l1.zip l2 := by
  induction l1 generalizing l2 with
  | nil => cases ha
  | cons x l1 ih =>
    cases l2 with
    | nil => simp at hlen
    | cons y l2 =>
      rcases List.mem_cons.mp ha with rfl | ha2
      · exact ⟨y, List.mem_cons_self _ _⟩
      · obtain ⟨b, hb⟩ := ih (by simpa using hlen) ha2
        exact ⟨b, List.mem_cons_of_mem _ hb⟩

/-- C6: for each configured URL-parameter rule, in order, `doHit` draws in
`[0,100)` and includes the rule iff its draw is below the rule's probability,
so: the applied keys are exactly the keys of the passing rules in configured
order, and the rendered URL is the cache-busted base followed by the passing
rules' segments (`&key=value` for a non-empty value, bare `&key` otherwise)
in configured order; every rule is paired with a draw; a rule with
probability 100 always passes (every draw is `< 100`) and its key is among
the applied keys; a rule with probability 0 never passes (no draw is
`< 0`). -/
theorem urlParams_injection (s : SimState) (d : HitDraws)
    (hlen : d.params.length = s.config.urlParams.length)
    (hb : ∀ u ∈ d.params, 0 ≤ u ∧ u < 100) :
    ((hitUrl s d).2 = ((s.config.urlParams.zip d.params).filter
        (fun pu => decide (pu.2 < pu.1.probability))).map (fun pu => pu.1.key))
    ∧ ((hitUrl s d).1 = s.targetUrl ++ (if s.targetUrl.contains '?' then "&" else "?")
        ++ "r=" ++ d.cacheBust ++ joinSegs (((s.config.urlParams.zip d.params).filter
          (fun pu => decide (pu.2 < pu.1.probability))).map (fun pu => paramSegment pu.1)))
    ∧ (∀ p ∈ s.config.urlParams, ∃ u, (p, u) ∈ s.config.urlParams.zip d.params)
    ∧ (∀ pu ∈ s.config.urlParams.zip d.params, pu.1.probability = 100 →
        pu.1.key ∈ (hitUrl s d).2)
    ∧ (∀ pu ∈ s.config.urlParams.zip d.params, pu.1.probability = 0 →
        ¬ pu.2 < pu.1.probability) := by
  obtain ⟨h1, h2⟩ := applyParams_spec s.config.urlParams d.params
    (s.targetUrl ++ (if s.targetUrl.contains '?' then "&" else "?") ++ "r=" ++ d.cacheBust)
  have hu : hitUrl s d = applyParams s.config.urlParams d.params
      (s.targetUrl ++ (if s.targetUrl.contains '?' then "&" else "?")
        ++ "r=" ++ d.cacheBust) := rfl
  refine ⟨by rw [hu]; exact h1, by rw [hu]; exact h2, ?_, ?_, ?_⟩
  · intro p hp
    exact exists_zip_of_mem hlen hp
  · intro pu hpu hprob
    obtain ⟨p, u⟩ := pu
    have hu100 : u < p.probability := by
      rw [hprob]
      exact (hb u (List.of_mem_zip hpu).2).2
    rw [hu, h1]
    exact List.mem_map.mpr ⟨(p, u),
      List.mem_filter.mpr ⟨hpu, decide_eq_true hu100⟩, rfl⟩
  · intro pu hpu hprob hlt
    obtain ⟨p, u⟩ := pu
    have hu0 : (0:ℚ) ≤ u := (hb u (List.of_mem_zip hpu).2).1
    rw [hprob] at hlt
    exact absurd hlt (not_lt.mpr hu0)

/-- C6 witness: instantiated on an engine with a probability-100 rule `qr`
(empty value) and a probability-0 rule `utm`, with both draws 0. -/
theorem urlParams_injection_witness :
    (paramDraws.params.length = paramState.config.urlParams.length
      ∧ ∀ u ∈ paramDraws.params, 0 ≤ u ∧ u < 100)
    ∧ (((hitUrl paramState paramDraws).2
        = ((paramState.config.urlParams.zip paramDraws.params).filter
          (fun pu => decide (pu.2 < pu.1.probability))).map (fun pu => pu.1.key))
      ∧ ((hitUrl paramState paramDraws).1 = paramState.targetUrl
          ++ (if paramState.targetUrl.contains '?' then "&" else "?")
          ++ "r=" ++ paramDraws.cacheBust
          ++ joinSegs (((paramState.config.urlParams.zip paramDraws.params).filter
            (fun pu => decide (pu.2 < pu.1.probability))).map (fun pu => paramSegment pu.1)))
      ∧ (∀ p ∈ paramState.config.urlParams, ∃ u,
          (p, u) ∈ paramState.config.urlParams.zip paramDraws.params)
      ∧ (∀ pu ∈ paramState.config.urlParams.zip paramDraws.params,
          pu.1.probability = 100 → pu.1.key ∈ (hitUrl paramState paramDraws).2)
      ∧ (∀ pu ∈ paramState.config.urlParams.zip paramDraws.params,
          pu.1.probability = 0 → ¬ pu.2 < pu.1.probability)) :=
  ⟨⟨by decide, by decide⟩,
   urlParams_injection paramState paramDraws (by decide) (by decide)⟩

/-- `randInt` stays within its bounds for draws in `[0,1)`. -/
theorem randInt_bounds (lo hi : ℤ) (r : ℚ) (hr0 : 0 ≤ r) (hr1 : r < 1)
    (hle : lo ≤ hi) : lo ≤ randInt lo hi r ∧ randInt lo hi r ≤ hi := by
  rw [randInt, jsFloor_eq]
  have hlo : (lo:ℚ) ≤ (hi:ℚ) := by exact_mod_cast hle
  have h0 : (0:ℚ) ≤ r * ((hi:ℚ) - (lo:ℚ) + 1) := by nlinarith
  have h1 : r * ((hi:ℚ) - (lo:ℚ) + 1) < ((hi - lo + 1 : ℤ) : ℚ) := by
    push_cast
    nlinarith
  have hf0 : 0 ≤ ⌊r * ((hi:ℚ) - (lo:ℚ) + 1)⌋ := Int.floor_nonneg.mpr h0
  have hf1 : ⌊r * ((hi:ℚ) - (lo:ℚ) + 1)⌋ < hi - lo + 1 := Int.floor_lt.mpr h1
  omega

/-- `randChoice` picks an element of a non-empty list for draws in `[0,1)`. -/
theorem randChoice_mem {α : Type} (l : List α) (dflt : α) (r : ℚ)
    (hr0 : 0 ≤ r) (hr1 : r < 1) (hne : l ≠ []) : randChoice l dflt r ∈ l := by
  rw [randChoice, jsFloor_eq]
  have hlen : 0 < l.length := List.length_pos.mpr hne
  have hlenq : (0:ℚ) < (l.length : ℚ) := by exact_mod_cast hlen
  have h1 : ⌊r * (l.length : ℚ)⌋ < (l.length : ℤ) := by
    apply Int.floor_lt.mpr
    push_cast
    nlinarith
  have h0 : 0 ≤ ⌊r * (l.length : ℚ)⌋ := Int.floor_nonneg.mpr (by nlinarith)
  have hidx : (⌊r * (l.length : ℚ)⌋).toNat < l.length := by omega
  rw [List.getD_eq_get? , List.get?_eq_get hidx]
  exact List.get_mem l _ _

/-- With `uniqueProb = 1` every call of `generateFakeIp` takes the synthesize
branch: it returns the drawn subnet with a host octet appended and records
the drawn subnet. -/
theorem generateFakeIp_unique_step (country : String) (used : List String)
    (d : IpDraws) (hu : d.unique < 1) :
    generateFakeIp country used 1 d
      = (drawnSubnet country d ++ "." ++ toString (randInt 1 254 d.host),
         setAdd used (drawnSubnet country d)) := by
  rw [generateFakeIp, if_pos (Or.inl hu)]
  rfl

/-- With `uniqueProb = 0` and a non-empty subnet set, every call of
`generateFakeIp` takes the reuse branch: it returns a previously recorded
subnet with a fresh host octet, and leaves the set unchanged. -/
theorem generateFakeIp_reuse_step (country : String) (used : List String)
    (d : IpDraws) (h0 : 0 ≤ d.unique) (hne : used ≠ []) :
    generateFakeIp country used 0 d
      = (randChoice used "" d.reuse ++ "." ++ toString (randInt 1 254 d.host), used) := by
  have hcond : ¬ (d.unique < 0 ∨ used.length = 0) := by
    rintro (h | h)
    · exact absurd h (not_lt.mpr h0)
    · exact hne (List.length_eq_zero.mp h)
  rw [generateFakeIp, if_neg hcond]

/-- Iterating `generateFakeIp` with `uniqueProb = 1` from any starting set:
one address per draw; the set grows by at most one subnet per draw; recorded
subnets are never lost; and every generated address is a recorded subnet of
the final set with a host octet in `[1,254]` appended. -/
theorem generateMany_unique_aux (country : String) (ds : List IpDraws)
    (hds : ∀ d ∈ ds, d.valid) (used : List String) :
    (generateMany country 1 used ds).1.length = ds.length
    ∧ (generateMany country 1 used ds).2.length ≤ used.length + ds.length
    ∧ (∀ sub ∈ used, sub ∈ (generateMany country 1 used ds).2)
    ∧ ∀ ip ∈ (generateMany country 1 used ds).1,
        ∃ sub ∈ (generateMany country 1 used ds).2, ∃ h : ℤ,
          1 ≤ h ∧ h ≤ 254 ∧ ip = sub ++ "." ++ toString h := by
  induction ds generalizing used with
  | nil =>
    refine ⟨rfl, by simp [generateMany], ?_, ?_⟩
    · intro sub hsub
      exact hsub
    · intro ip hip
      exact absurd hip (List.not_mem_nil _)
  | cons d ds ih =>
    obtain ⟨hv0, hv1, hv2, hv3, hv4, hv5, hv6, hv7, hv8, hv9, hv10, hv11⟩ :=
      hds d (List.mem_cons_self d ds)
    have hds2 : ∀ x ∈ ds, x.valid := fun x hx => hds x (List.mem_cons_of_mem d hx)
    have hstep := generateFakeIp_unique_step country used d hv1
    have harm : generateMany country 1 used (d :: ds)
        = ((generateFakeIp country used 1 d).1
            :: (generateMany country 1 (generateFakeIp country used 1 d).2 ds).1,
           (generateMany country 1 (generateFakeIp country used 1 d).2 ds).2) := rfl
    rw [harm, hstep]
    obtain ⟨ih1, ih2, ih3, ih4⟩ := ih hds2 (setAdd used (drawnSubnet country d))
    have hsetlen := setAdd_length_le used (drawnSubnet country d)
    obtain ⟨hh1, hh2⟩ := randInt_bounds 1 254 d.host hv8 hv9 (by norm_num)
    refine ⟨?_, ?_, ?_, ?_⟩
    · simp [ih1]
    · simp only [List.length_cons]
      omega
    · intro sub hsub
      exact ih3 sub (mem_setAdd_of_mem _ hsub)
    · intro ip hip
      rcases List.mem_cons.mp hip with heq | hmem
      · exact ⟨drawnSubnet country d, ih3 _ (self_mem_setAdd used _),
          randInt 1 254 d.host, hh1, hh2, heq⟩
      · exact ih4 ip hmem

/-- C3 amended: with `uniqueProb = 1.0` (and starting from an empty set),
every generated address consists of the drawn-and-recorded subnet plus a host
octet in `[1,254]`, and after `n` generations the recorded-subnet set has
size *at most* `n` — the independently drawn octets can collide with an
already-recorded subnet, in which case the `Set` does not grow, so equality
holds only when the drawn subnets are pairwise distinct.  With
`uniqueProb = 0.0` and at least one recorded subnet, every generated
address's 3-octet prefix is an already-recorded subnet, its host octet is in
`[1,254]`, and the set is unchanged. -/
theorem generateFakeIp_uniqueness (country : String) (ds : List IpDraws)
    (hds : ∀ d ∈ ds, d.valid) (used : List String) (hne : used ≠ [])
    (d : IpDraws) (hd : d.valid) :
    ((generateMany country 1 [] ds).1.length = ds.length
      ∧ (generateMany country 1 [] ds).2.length ≤ ds.length
      ∧ ∀ ip ∈ (generateMany country 1 [] ds).1,
          ∃ sub ∈ (generateMany country 1 [] ds).2, ∃ h : ℤ,
            1 ≤ h ∧ h ≤ 254 ∧ ip = sub ++ "." ++ toString h)
    ∧ ((generateFakeIp country used 0 d).2 = used
      ∧ ∃ sub ∈ used, ∃ h : ℤ, 1 ≤ h ∧ h ≤ 254
          ∧ (generateFakeIp country used 0 d).1 = sub ++ "." ++ toString h) := by
  obtain ⟨hv0, hv1, hv2, hv3, hv4, hv5, hv6, hv7, hv8, hv9, hv10, hv11⟩ := hd
  obtain ⟨h1, h2, _h3, h4⟩ := generateMany_unique_aux country ds hds []
  have hstep := generateFakeIp_reuse_step country used d hv0 hne
  obtain ⟨hh1, hh2⟩ := randInt_bounds 1 254 d.host hv8 hv9 (by norm_num)
  refine ⟨⟨h1, by simpa using h2, h4⟩, ?_, ?_⟩
  · rw [hstep]
  · exact ⟨randChoice used "" d.reuse, randChoice_mem used "" d.reuse hv10 hv11 hne,
      randInt 1 254 d.host, hh1, hh2, by rw [hstep]⟩

/-- C3 counterexample: the "size exactly n" part of the claim is false on the
code.  With `uniqueProb = 1.0` and two generations whose draws happen to
produce the same octets, both record the same subnet `3.0.0`, so after 2
generations the recorded-subnet set has size 1, not 2. -/
theorem uniqueProb_one_collision_counterexample :
    (∀ d ∈ [(⟨0, 0, 0, 0, 0, 0⟩ : IpDraws), ⟨0, 0, 0, 0, 0, 0⟩], d.valid)
    ∧ (generateMany "US" 1 [] [⟨0, 0, 0, 0, 0, 0⟩, ⟨0, 0, 0, 0, 0, 0⟩]).2
        = ["3.0.0"]
    ∧ (generateMany "US" 1 [] [⟨0, 0, 0, 0, 0, 0⟩, ⟨0, 0, 0, 0, 0, 0⟩]).2.length = 1
    ∧ (1 : ℕ) ≠ 2 := by
  refine ⟨by decide, by decide, by decide, by decide⟩

/-- C3 amended witness: instantiated at one zero draw from the empty set
(unique branch) and one zero draw against the recorded set `["3.0.0"]`
(reuse branch). -/
theorem generateFakeIp_uniqueness_witness :
    ((∀ d ∈ [(⟨0, 0, 0, 0, 0, 0⟩ : IpDraws)], d.valid)
      ∧ (["3.0.0"] : List String) ≠ []
      ∧ (⟨0, 0, 0, 0, 0, 0⟩ : IpDraws).valid)
    ∧ (((generateMany "US" 1 [] [⟨0, 0, 0, 0, 0, 0⟩]).1.length
          = [(⟨0, 0, 0, 0, 0, 0⟩ : IpDraws)].length
      ∧ (generateMany "US" 1 [] [⟨0, 0, 0, 0, 0, 0⟩]).2.length
          ≤ [(⟨0, 0, 0, 0, 0, 0⟩ : IpDraws)].length
      ∧ ∀ ip ∈ (generateMany "US" 1 [] [⟨0, 0, 0, 0, 0, 0⟩]).1,
          ∃ sub ∈ (generateMany "US" 1 [] [⟨0, 0, 0, 0, 0, 0⟩]).2, ∃ h : ℤ,
            1 ≤ h ∧ h ≤ 254 ∧ ip = sub ++ "." ++ toString h)
    ∧ ((generateFakeIp "US" ["3.0.0"] 0 ⟨0, 0, 0, 0, 0, 0⟩).2 = ["3.0.0"]
      ∧ ∃ sub ∈ (["3.0.0"] : List String), ∃ h : ℤ, 1 ≤ h ∧ h ≤ 254
          ∧ (generateFakeIp "US" ["3.0.0"] 0 ⟨0, 0, 0, 0, 0, 0⟩).1
            = sub ++ "." ++ toString h)) :=
  ⟨⟨by decide, by decide, by decide⟩,
   generateFakeIp_uniqueness "US" [⟨0, 0, 0, 0, 0, 0⟩] (by decide) ["3.0.0"]
     (by decide) ⟨0, 0, 0, 0, 0, 0⟩ (by decide)⟩

end Hitmaker
